import Mathlib

/-!
Verification of the aws-console-link pipeline (src/main.rs).

The program is a linear pipeline: read and validate credentials from the
process environment, exchange them at the federation endpoint for a signin
token, build the console URL, and open it in the browser.  External
collaborators (process environment, HTTP transport, JSON text
encoding/decoding, the browser opener) enter the model as explicit inputs:
the environment as a lookup function, the endpoint answer as an
`HttpResponse` whose body is an already-decoded JSON value, and the launch
as the `ok` result of `run`.
-/

set_option autoImplicit false

namespace AwsConsoleLink

/-- Error kinds of the pipeline.  In the Rust source every failure is an
`anyhow` error; each constructor here corresponds to one distinct failure
site (identified by its context or message string in `main.rs`). -/
inductive Error where
  /-- An `env_getter` call failed; the context string names the variable
  (`Missing AWS_PROFILE variable`, ...). -/
  | MissingVariable (name : String)
  /-- The message `Request profile name different than the exported profile
  name` in `get_aws_credentials`. -/
  | ProfileMismatch
  /-- The message `Request failed` on a non-success HTTP status in
  `get_signin_token`. -/
  | ExchangeFailed
  /-- The context `Failed to deserialize the response` in
  `get_signin_token`. -/
  | MalformedResponse
  /-- The context `Failed to build the URL` in `get_console_url`. -/
  | UrlBuildError
  /-- A failure of `open::that` in `run`. -/
  | LaunchFailed
  deriving DecidableEq, Repr

/-- The `Credentials` struct of `main.rs` (internal field names; the serde
rename attributes are modelled by `credentialsToJson` below). -/
structure Credentials where
  access_key_id : String
  secret_access_key : String
  session_token : String
  deriving DecidableEq, Repr

/-- The `EnvGetter` capability `dyn Fn(&str) -> anyhow::Result<String>`:
`none` models `std::env::var` failing for an absent variable. -/
def EnvGetter : Type := String → Option String

/-- The `get_aws_credentials` function of `main.rs`, instrumented with the
list of keys passed to `env_getter`, in call order.  The control flow is a
direct transcription: read `AWS_PROFILE` (`?` on failure), compare with the
claimed profile name, then read the three credential variables in order,
each with `?` on failure. -/
def getAwsCredentialsT (profile_name : String) (env_getter : EnvGetter) :
    Except Error Credentials × List String :=
  match env_getter "AWS_PROFILE" with
  | none => (Except.error (Error.MissingVariable "AWS_PROFILE"), ["AWS_PROFILE"])
  | some exported_profile_name =>
    if profile_name ≠ exported_profile_name then
      (Except.error Error.ProfileMismatch, ["AWS_PROFILE"])
    else
      match env_getter "AWS_ACCESS_KEY_ID" with
      | none => (Except.error (Error.MissingVariable "AWS_ACCESS_KEY_ID"),
          ["AWS_PROFILE", "AWS_ACCESS_KEY_ID"])
      | some access_key_id =>
        match env_getter "AWS_SECRET_ACCESS_KEY" with
        | none => (Except.error (Error.MissingVariable "AWS_SECRET_ACCESS_KEY"),
            ["AWS_PROFILE", "AWS_ACCESS_KEY_ID", "AWS_SECRET_ACCESS_KEY"])
        | some secret_access_key =>
          match env_getter "AWS_SESSION_TOKEN" with
          | none => (Except.error (Error.MissingVariable "AWS_SESSION_TOKEN"),
              ["AWS_PROFILE", "AWS_ACCESS_KEY_ID", "AWS_SECRET_ACCESS_KEY",
               "AWS_SESSION_TOKEN"])
          | some session_token =>
            (Except.ok ⟨access_key_id, secret_access_key, session_token⟩,
             ["AWS_PROFILE", "AWS_ACCESS_KEY_ID", "AWS_SECRET_ACCESS_KEY",
              "AWS_SESSION_TOKEN"])

/-- The result of `get_aws_credentials`, forgetting the instrumentation. -/
def get_aws_credentials (profile_name : String) (env_getter : EnvGetter) :
    Except Error Credentials :=
  (getAwsCredentialsT profile_name env_getter).1

/-- The keys `get_aws_credentials` passes to `env_getter`, in call order. -/
def getAwsCredentialsReads (profile_name : String) (env_getter : EnvGetter) :
    List String :=
  (getAwsCredentialsT profile_name env_getter).2

/-- A fully populated test environment (a mapping-backed fake `EnvGetter`). -/
def envFull : EnvGetter := fun key =>
  if key = "AWS_PROFILE" then some "foo"
  else if key = "AWS_ACCESS_KEY_ID" then some "AKIDEXAMPLE"
  else if key = "AWS_SECRET_ACCESS_KEY" then some "SECRETEXAMPLE"
  else if key = "AWS_SESSION_TOKEN" then some "TOKENEXAMPLE"
  else none

/-- A test environment whose `AWS_ACCESS_KEY_ID` is exported but empty. -/
def envEmptyAccessKey : EnvGetter := fun key =>
  if key = "AWS_PROFILE" then some "foo"
  else if key = "AWS_ACCESS_KEY_ID" then some ""
  else if key = "AWS_SECRET_ACCESS_KEY" then some "SECRETEXAMPLE"
  else if key = "AWS_SESSION_TOKEN" then some "TOKENEXAMPLE"
  else none

/-- A test environment with no `AWS_SECRET_ACCESS_KEY`. -/
def envNoSecret : EnvGetter := fun key =>
  if key = "AWS_PROFILE" then some "foo"
  else if key = "AWS_ACCESS_KEY_ID" then some "AKIDEXAMPLE"
  else none

/-- A test environment with no variable exported at all. -/
def envEmpty : EnvGetter := fun _ => none

/-- A test environment with only `AWS_PROFILE` exported. -/
def envProfileOnly : EnvGetter := fun key =>
  if key = "AWS_PROFILE" then some "foo" else none

/-- A test environment with everything but `AWS_SESSION_TOKEN`. -/
def envNoToken : EnvGetter := fun key =>
  if key = "AWS_PROFILE" then some "foo"
  else if key = "AWS_ACCESS_KEY_ID" then some "AKIDEXAMPLE"
  else if key = "AWS_SECRET_ACCESS_KEY" then some "SECRETEXAMPLE"
  else none

/-- A JSON value, as handed over by the JSON library (serde_json): the HTTP
response body enters the model already decoded into this shape. -/
inductive Json where
  | null
  | bool (b : Bool)
  | num (n : Int)
  | str (s : String)
  | arr (elems : List Json)
  | obj (fields : List (String × Json))
  deriving Repr

/-- The serde `Serialize` instance of `Credentials`, at the JSON-value
level: the rename attributes map `access_key_id` to `sessionId`,
`secret_access_key` to `sessionKey` and `session_token` to `sessionToken`,
in declaration order. -/
def credentialsToJson (c : Credentials) : Json :=
  Json.obj
    [("sessionId", Json.str c.access_key_id),
     ("sessionKey", Json.str c.secret_access_key),
     ("sessionToken", Json.str c.session_token)]

/-- The field names of a JSON object, in order (`[]` for non-objects). -/
def jsonFieldNames : Json → List String
  | Json.obj fields => fields.map Prod.fst
  | _ => []

/-- Look up the first field of a JSON object with the given name. -/
def jsonLookup (j : Json) (name : String) : Option Json :=
  match j with
  | Json.obj fields => lookupFields fields
  | _ => none
where
  lookupFields : List (String × Json) → Option Json
    | [] => none
    | (k, v) :: rest => if k = name then some v else lookupFields rest

/-- The serde `Deserialize` instance of `GetSigninTokenResponse`: an object
whose field `signin_token` (accepted under the alias `SigninToken` as well)
holds a string; any other shape is a deserialization failure (`none`).
Extra fields are ignored, as serde does by default. -/
def parseGetSigninTokenResponse (j : Json) : Option String :=
  match j with
  | Json.obj fields => findField fields
  | _ => none
where
  findField : List (String × Json) → Option String
    | [] => none
    | (k, v) :: rest =>
      if k = "signin_token" ∨ k = "SigninToken" then
        match v with
        | Json.str s => some s
        | _ => none
      else findField rest

/-- An HTTP response from the federation endpoint: the status code, and the
body as decoded by the JSON library. -/
structure HttpResponse where
  status : Nat
  body : Json

/-- The `reqwest` `StatusCode::is_success` predicate: status in 200..=299. -/
def isSuccessStatus (status : Nat) : Bool :=
  200 ≤ status && status < 300

/-- The request URL built inside `get_signin_token`. -/
def signinRequestUrl (region : String) : String :=
  "https://" ++ region ++ ".signin.aws.amazon.com/federation"

/-- The `get_signin_token` function of `main.rs`.  The outbound GET is the
external HTTP call, so the endpoint's answer `res` is an input of the
model.  Serialization of the credentials (which parameterizes the request
and cannot fail for this struct) is `credentialsToJson`.  On a success
status the body is deserialized as `GetSigninTokenResponse` and its
`signin_token` field returned; a deserialization failure is
`MalformedResponse`, a non-success status is the `Request failed` error. -/
def get_signin_token (credentials : Credentials) (region : String)
    (res : HttpResponse) : Except Error String :=
  let _serialized_credentials := credentialsToJson credentials
  let _request_url := signinRequestUrl region
  if isSuccessStatus res.status then
    match parseGetSigninTokenResponse res.body with
    | some signin_token => Except.ok signin_token
    | none => Except.error Error.MalformedResponse
  else
    Except.error Error.ExchangeFailed

/-- Uppercase hexadecimal digit for a value below 16. -/
def hexDigitChar (n : Nat) : Char :=
  if n < 10 then Char.ofNat (48 + n) else Char.ofNat (55 + n)

/-- The UTF-8 byte sequence of a code point (standard UTF-8 encoding). -/
def utf8EncodeCharBytes (n : Nat) : List Nat :=
  if n < 128 then [n]
  else if n < 2048 then [192 + n / 64, 128 + n % 64]
  else if n < 65536 then [224 + n / 4096, 128 + (n / 64) % 64, 128 + n % 64]
  else [240 + n / 262144, 128 + (n / 4096) % 64, 128 + (n / 64) % 64,
        128 + n % 64]

/-- Bytes the `form_urlencoded` serializer of the `url` crate leaves as-is:
ASCII alphanumerics and `*`, `-`, `.`, `_`. -/
def isFormUnreserved (b : Nat) : Bool :=
  (48 ≤ b && b ≤ 57) || (65 ≤ b && b ≤ 90) || (97 ≤ b && b ≤ 122) ||
    b = 42 || b = 45 || b = 46 || b = 95

/-- One byte under `application/x-www-form-urlencoded` serialization: kept
if unreserved, space becomes `+`, anything else is percent-encoded with
uppercase hex digits. -/
def formUrlencodeByte (b : Nat) : List Char :=
  if isFormUnreserved b then [Char.ofNat b]
  else if b = 32 then ['+']
  else ['%', hexDigitChar (b / 16), hexDigitChar (b % 16)]

/-- The `form_urlencoded` query-value serializer used by
`Url::parse_with_params`: each character's UTF-8 bytes, each byte encoded
by `formUrlencodeByte`. -/
def formUrlencode (s : String) : String :=
  String.mk
    (((s.data.map (fun c => ((utf8EncodeCharBytes c.toNat).map
        formUrlencodeByte).flatten)).flatten))

/-- A parsed URL, as far as this program observes one: scheme, host, path
and the query pairs. -/
structure Url where
  scheme : String
  host : String
  path : String
  query : List (String × String)
  deriving DecidableEq, Repr

/-- Split a character list at the first occurrence of `c`; `none` when `c`
does not occur. -/
def splitAtChar (c : Char) : List Char → Option (List Char × List Char)
  | [] => none
  | x :: xs =>
    if x = c then some ([], xs)
    else (splitAtChar c xs).map (fun p => (x :: p.1, p.2))

/-- Model of `reqwest::Url::parse` (the `url` crate), restricted to the
shapes this program parses: an absolute URL `scheme://host/path` with no
query, fragment, userinfo or port (the only string the program parses is
the constant federation base URL, which has this shape).  An input without
`://`, or with an empty scheme or host, fails; an absent path is the root
path, as the `url` crate normalizes it. -/
def urlParse (s : String) : Option Url :=
  match splitAtChar ':' s.data with
  | none => none
  | some (schemeChars, rest) =>
    match rest with
    | '/' :: '/' :: hostAndPath =>
      if schemeChars = [] then none
      else
        match splitAtChar '/' hostAndPath with
        | none =>
          if hostAndPath = [] then none
          else some ⟨String.mk schemeChars, String.mk hostAndPath, "/", []⟩
        | some (hostChars, pathChars) =>
          if hostChars = [] then none
          else some ⟨String.mk schemeChars, String.mk hostChars,
            String.mk ('/' :: pathChars), []⟩
    | _ => none

/-- One serialized query pair: encoded key, `=`, encoded value. -/
def queryPairString (p : String × String) : String :=
  formUrlencode p.1 ++ "=" ++ formUrlencode p.2

/-- Serialized query pairs joined with `&`. -/
def queryString : List (String × String) → String
  | [] => ""
  | [p] => queryPairString p
  | p :: rest => queryPairString p ++ "&" ++ queryString rest

/-- The string form of a `Url` (`url.into()` in the source): scheme, host,
path, and the `?`-prefixed serialized query when there are query pairs. -/
def urlToString (u : Url) : String :=
  u.scheme ++ "://" ++ u.host ++ u.path ++
    (match u.query with
     | [] => ""
     | _ => "?" ++ queryString u.query)

/-- Model of `reqwest::Url::parse_with_params`: parse the base URL, then
append the given pairs to its query. -/
def parse_with_params (base : String) (params : List (String × String)) :
    Option Url :=
  (urlParse base).map (fun u => { u with query := u.query ++ params })

/-- The destination URL built inside `get_console_url` by `format!`. -/
def destinationUrl (region : String) : String :=
  "https://" ++ region ++ ".console.aws.amazon.com/console/home?region=" ++
    region

/-- The constant federation base URL of `get_console_url`. -/
def federationBaseUrl : String := "https://signin.aws.amazon.com/federation"

/-- The `get_console_url` function of `main.rs`: build the destination URL,
then `parse_with_params` on the constant federation URL with the four query
pairs; a parse failure is the `Failed to build the URL` error, success
returns the URL's string form. -/
def get_console_url (signin_token : String) (region : String) :
    Except Error String :=
  let destination_url := destinationUrl region
  match parse_with_params federationBaseUrl
      [("Action", "login"), ("Issuer", "wojteks-app"),
       ("Destination", destination_url), ("SigninToken", signin_token)] with
  | some url => Except.ok (urlToString url)
  | none => Except.error Error.UrlBuildError

/-- The parsed final URL (before stringification), for structural facts
about its host, path and query. -/
def consoleUrlParsed (signin_token : String) (region : String) :
    Option Url :=
  parse_with_params federationBaseUrl
    [("Action", "login"), ("Issuer", "wojteks-app"),
     ("Destination", destinationUrl region), ("SigninToken", signin_token)]

/-- The `run` function of `main.rs`: extract credentials, exchange them for
a signin token, build the console URL, then hand it to `open::that`.  The
environment and the endpoint's response are the external inputs; the `ok`
value is the URL the Launcher is invoked with, so `run ... = Except.error e`
means the browser is never opened. -/
def run (profile_name : String) (region : String) (env_getter : EnvGetter)
    (res : HttpResponse) : Except Error String := do
  let credentials ← get_aws_credentials profile_name env_getter
  let signin_token ← get_signin_token credentials region res
  let console_url ← get_console_url signin_token region
  pure console_url

example :
    get_aws_credentials "foo" envFull =
      Except.ok ⟨"AKIDEXAMPLE", "SECRETEXAMPLE", "TOKENEXAMPLE"⟩ := by rfl

example :
    get_aws_credentials "bar" envFull = Except.error Error.ProfileMismatch := by
  rfl

example :
    getAwsCredentialsT "foo" envNoSecret =
      (Except.error (Error.MissingVariable "AWS_SECRET_ACCESS_KEY"),
       ["AWS_PROFILE", "AWS_ACCESS_KEY_ID", "AWS_SECRET_ACCESS_KEY"]) := by
  rfl

/-- C1: with `AWS_PROFILE` exported as `p2` and the CLI invoked with claimed
profile `p1`, credential extraction fails with `ProfileMismatch` whenever
`p1 ≠ p2`, and proceeds past the comparison (a `ProfileMismatch` error is
impossible) exactly when the claimed name equals the exported value. -/
theorem c1_profile_mismatch_iff (p1 p2 : String) (env : EnvGetter)
    (hp : env "AWS_PROFILE" = some p2) :
    (p1 ≠ p2 → get_aws_credentials p1 env = Except.error Error.ProfileMismatch)
    ∧ (p1 = p2 →
        get_aws_credentials p1 env ≠ Except.error Error.ProfileMismatch) := by
  constructor
  · intro hne
    simp [get_aws_credentials, getAwsCredentialsT, hp, hne]
  · rintro rfl
    cases hA : env "AWS_ACCESS_KEY_ID" with
    | none => simp [get_aws_credentials, getAwsCredentialsT, hp, hA]
    | some a =>
      cases hS : env "AWS_SECRET_ACCESS_KEY" with
      | none => simp [get_aws_credentials, getAwsCredentialsT, hp, hA, hS]
      | some s =>
        cases hT : env "AWS_SESSION_TOKEN" with
        | none => simp [get_aws_credentials, getAwsCredentialsT, hp, hA, hS, hT]
        | some t => simp [get_aws_credentials, getAwsCredentialsT, hp, hA, hS, hT]

/-- Witness for C1 at a concrete mismatching and a concrete matching
claimed profile against `envFull` (which exports `AWS_PROFILE=foo`). -/
theorem c1_profile_mismatch_iff_witness :
    (("bar" ≠ "foo" →
        get_aws_credentials "bar" envFull = Except.error Error.ProfileMismatch)
      ∧ ("bar" = "foo" →
        get_aws_credentials "bar" envFull ≠ Except.error Error.ProfileMismatch))
    ∧ (("foo" ≠ "foo" →
        get_aws_credentials "foo" envFull = Except.error Error.ProfileMismatch)
      ∧ ("foo" = "foo" →
        get_aws_credentials "foo" envFull ≠ Except.error Error.ProfileMismatch)) :=
  ⟨c1_profile_mismatch_iff "bar" "foo" envFull rfl,
   c1_profile_mismatch_iff "foo" "foo" envFull rfl⟩

/-- C2: extraction reads `AWS_PROFILE` first; an absent `AWS_PROFILE` fails
with `MissingVariable AWS_PROFILE` after that single read.  Past the
profile comparison it reads `AWS_ACCESS_KEY_ID`, `AWS_SECRET_ACCESS_KEY`,
`AWS_SESSION_TOKEN` in that order, and the first absent variable fails
immediately with `MissingVariable` of its name, the read trace showing that
no later variable is read. -/
theorem c2_read_order_first_failure (p : String) (env : EnvGetter) :
    (env "AWS_PROFILE" = none →
      getAwsCredentialsT p env =
        (Except.error (Error.MissingVariable "AWS_PROFILE"), ["AWS_PROFILE"]))
    ∧ (env "AWS_PROFILE" = some p →
        (env "AWS_ACCESS_KEY_ID" = none →
          getAwsCredentialsT p env =
            (Except.error (Error.MissingVariable "AWS_ACCESS_KEY_ID"),
             ["AWS_PROFILE", "AWS_ACCESS_KEY_ID"]))
        ∧ (∀ a, env "AWS_ACCESS_KEY_ID" = some a →
            (env "AWS_SECRET_ACCESS_KEY" = none →
              getAwsCredentialsT p env =
                (Except.error (Error.MissingVariable "AWS_SECRET_ACCESS_KEY"),
                 ["AWS_PROFILE", "AWS_ACCESS_KEY_ID", "AWS_SECRET_ACCESS_KEY"]))
            ∧ (∀ s, env "AWS_SECRET_ACCESS_KEY" = some s →
                env "AWS_SESSION_TOKEN" = none →
                getAwsCredentialsT p env =
                  (Except.error (Error.MissingVariable "AWS_SESSION_TOKEN"),
                   ["AWS_PROFILE", "AWS_ACCESS_KEY_ID", "AWS_SECRET_ACCESS_KEY",
                    "AWS_SESSION_TOKEN"])))) := by
  refine ⟨fun hP => ?_, fun hP => ⟨fun hA => ?_, fun a hA => ⟨fun hS => ?_,
    fun s hS hT => ?_⟩⟩⟩
  · simp [getAwsCredentialsT, hP]
  · simp [getAwsCredentialsT, hP, hA]
  · simp [getAwsCredentialsT, hP, hA, hS]
  · simp [getAwsCredentialsT, hP, hA, hS, hT]

/-- Witness for C2: one concrete environment per position of the first
absent variable, each hypothesis discharged by evaluation. -/
theorem c2_read_order_first_failure_witness :
    getAwsCredentialsT "foo" envEmpty =
      (Except.error (Error.MissingVariable "AWS_PROFILE"), ["AWS_PROFILE"])
    ∧ getAwsCredentialsT "foo" envProfileOnly =
      (Except.error (Error.MissingVariable "AWS_ACCESS_KEY_ID"),
       ["AWS_PROFILE", "AWS_ACCESS_KEY_ID"])
    ∧ getAwsCredentialsT "foo" envNoSecret =
      (Except.error (Error.MissingVariable "AWS_SECRET_ACCESS_KEY"),
       ["AWS_PROFILE", "AWS_ACCESS_KEY_ID", "AWS_SECRET_ACCESS_KEY"])
    ∧ getAwsCredentialsT "foo" envNoToken =
      (Except.error (Error.MissingVariable "AWS_SESSION_TOKEN"),
       ["AWS_PROFILE", "AWS_ACCESS_KEY_ID", "AWS_SECRET_ACCESS_KEY",
        "AWS_SESSION_TOKEN"]) :=
  ⟨(c2_read_order_first_failure "foo" envEmpty).1 rfl,
   ((c2_read_order_first_failure "foo" envProfileOnly).2 rfl).1 rfl,
   (((c2_read_order_first_failure "foo" envNoSecret).2 rfl).2
      "AKIDEXAMPLE" rfl).1 rfl,
   (((c2_read_order_first_failure "foo" envNoToken).2 rfl).2
      "AKIDEXAMPLE" rfl).2 "SECRETEXAMPLE" rfl rfl⟩

/-- C3: with `AWS_PROFILE=foo`, CLI profile `foo`, and the three credential
variables holding `k`, `s`, `t`, extraction succeeds with exactly those
values in the corresponding `Credentials` fields. -/
theorem c3_extraction_success (env : EnvGetter) (k s t : String)
    (hp : env "AWS_PROFILE" = some "foo")
    (hk : env "AWS_ACCESS_KEY_ID" = some k)
    (hs : env "AWS_SECRET_ACCESS_KEY" = some s)
    (ht : env "AWS_SESSION_TOKEN" = some t) :
    get_aws_credentials "foo" env = Except.ok ⟨k, s, t⟩ := by
  simp [get_aws_credentials, getAwsCredentialsT, hp, hk, hs, ht]

/-- Witness for C3 at the concrete environment `envFull`. -/
theorem c3_extraction_success_witness :
    get_aws_credentials "foo" envFull =
      Except.ok ⟨"AKIDEXAMPLE", "SECRETEXAMPLE", "TOKENEXAMPLE"⟩ :=
  c3_extraction_success envFull "AKIDEXAMPLE" "SECRETEXAMPLE" "TOKENEXAMPLE"
    rfl rfl rfl rfl

/-- C4 counterexample: with `AWS_ACCESS_KEY_ID` exported as the empty
string, extraction succeeds and returns a `Credentials` value whose
`access_key_id` field is empty — so extraction can return an empty field. -/
theorem c4_counterexample :
    get_aws_credentials "foo" envEmptyAccessKey =
      Except.ok ⟨"", "SECRETEXAMPLE", "TOKENEXAMPLE"⟩
    ∧ (Credentials.mk "" "SECRETEXAMPLE" "TOKENEXAMPLE").access_key_id = "" :=
  ⟨rfl, rfl⟩

/-- C4 as amended: extraction copies the environment's values verbatim, so
whenever the environment does not export any of the three credential
variables as the empty string, every `Credentials` value it returns has all
three fields non-empty (the extractor itself performs no emptiness or
format validation). -/
theorem c4_nonempty_fields (env : EnvGetter) (p : String) (c : Credentials)
    (hok : get_aws_credentials p env = Except.ok c)
    (hk : env "AWS_ACCESS_KEY_ID" ≠ some "")
    (hs : env "AWS_SECRET_ACCESS_KEY" ≠ some "")
    (ht : env "AWS_SESSION_TOKEN" ≠ some "") :
    c.access_key_id ≠ "" ∧ c.secret_access_key ≠ "" ∧ c.session_token ≠ "" := by
  unfold get_aws_credentials getAwsCredentialsT at hok
  cases hP : env "AWS_PROFILE" with
  | none => rw [hP] at hok; simp at hok
  | some e =>
    rw [hP] at hok
    by_cases hpe : p = e
    · simp only [hpe, ne_eq, not_true_eq_false, if_false, ite_false] at hok
      cases hA : env "AWS_ACCESS_KEY_ID" with
      | none => rw [hA] at hok; simp at hok
      | some a =>
        rw [hA] at hok
        cases hS : env "AWS_SECRET_ACCESS_KEY" with
        | none => rw [hS] at hok; simp at hok
        | some s =>
          rw [hS] at hok
          cases hT : env "AWS_SESSION_TOKEN" with
          | none => rw [hT] at hok; simp at hok
          | some t =>
            rw [hT] at hok
            simp only [Except.ok.injEq] at hok
            subst hok
            refine ⟨?_, ?_, ?_⟩
            · intro h; exact hk (h ▸ hA)
            · intro h; exact hs (h ▸ hS)
            · intro h; exact ht (h ▸ hT)
    · simp [hpe] at hok

/-- Witness for the amended C4 at the concrete environment `envFull`. -/
theorem c4_nonempty_fields_witness :
    (Credentials.mk "AKIDEXAMPLE" "SECRETEXAMPLE" "TOKENEXAMPLE").access_key_id ≠ ""
    ∧ (Credentials.mk "AKIDEXAMPLE" "SECRETEXAMPLE" "TOKENEXAMPLE").secret_access_key ≠ ""
    ∧ (Credentials.mk "AKIDEXAMPLE" "SECRETEXAMPLE" "TOKENEXAMPLE").session_token ≠ "" :=
  c4_nonempty_fields envFull "foo"
    ⟨"AKIDEXAMPLE", "SECRETEXAMPLE", "TOKENEXAMPLE"⟩ rfl
    (by decide) (by decide) (by decide)

/-- C10: when `AWS_PROFILE` is exported as `p2` and the claimed profile
`p1` differs, extraction returns `ProfileMismatch` with a read trace of
exactly one environment query, for `AWS_PROFILE` only: none of the three
credential variables is read. -/
theorem c10_mismatch_reads_profile_only (p1 p2 : String) (env : EnvGetter)
    (hp : env "AWS_PROFILE" = some p2) (hne : p1 ≠ p2) :
    getAwsCredentialsT p1 env =
      (Except.error Error.ProfileMismatch, ["AWS_PROFILE"]) := by
  simp [getAwsCredentialsT, hp, hne]

/-- Witness for C10 at `envFull` with a mismatching claimed profile. -/
theorem c10_mismatch_reads_profile_only_witness :
    getAwsCredentialsT "bar" envFull =
      (Except.error Error.ProfileMismatch, ["AWS_PROFILE"]) :=
  c10_mismatch_reads_profile_only "bar" "foo" envFull rfl (by decide)

/-- C5: the Token Exchanger serializes `Credentials` into a JSON object
whose field names are exactly `sessionId`, `sessionKey`, `sessionToken`,
where looking each name up yields the corresponding internal field's
value (`access_key_id`, `secret_access_key`, `session_token`). -/
theorem c5_serialization_renames (c : Credentials) :
    jsonFieldNames (credentialsToJson c) =
      ["sessionId", "sessionKey", "sessionToken"]
    ∧ jsonLookup (credentialsToJson c) "sessionId" =
      some (Json.str c.access_key_id)
    ∧ jsonLookup (credentialsToJson c) "sessionKey" =
      some (Json.str c.secret_access_key)
    ∧ jsonLookup (credentialsToJson c) "sessionToken" =
      some (Json.str c.session_token) := by
  refine ⟨rfl, ?_, ?_, ?_⟩ <;>
    simp [credentialsToJson, jsonLookup, jsonLookup.lookupFields]

/-- C6: a non-success HTTP status from the federation endpoint makes
`get_signin_token` fail with `ExchangeFailed` for every credentials value
and region, and the pipeline `run` can then never reach the Launcher (its
result is never an `ok` URL). -/
theorem c6_exchange_failed (credentials : Credentials)
    (p region : String) (env : EnvGetter) (res : HttpResponse)
    (hfail : isSuccessStatus res.status = false) :
    get_signin_token credentials region res = Except.error Error.ExchangeFailed
    ∧ ∀ url, run p region env res ≠ Except.ok url := by
  have hex : ∀ c : Credentials,
      get_signin_token c region res = Except.error Error.ExchangeFailed := by
    intro c
    simp [get_signin_token, hfail]
  refine ⟨hex credentials, fun url h => ?_⟩
  unfold run at h
  cases hc : get_aws_credentials p env with
  | error e =>
    rw [hc] at h
    exact Except.noConfusion h
  | ok c =>
    rw [hc] at h
    have h3 : (do
        let signin_token ← get_signin_token c region res
        get_console_url signin_token region) = Except.ok url := h
    rw [hex c] at h3
    exact Except.noConfusion h3

/-- Witness for C6 at HTTP status 403 with concrete credentials, a full
environment and a null body. -/
theorem c6_exchange_failed_witness :
    isSuccessStatus 403 = false
    ∧ get_signin_token ⟨"k", "s", "t"⟩ "us-east-1" ⟨403, Json.null⟩ =
      Except.error Error.ExchangeFailed
    ∧ run "foo" "us-east-1" envFull ⟨403, Json.null⟩ ≠ Except.ok
      "https://example.invalid" :=
  ⟨by decide,
   (c6_exchange_failed ⟨"k", "s", "t"⟩ "foo" "us-east-1" envFull
      ⟨403, Json.null⟩ rfl).1,
   (c6_exchange_failed ⟨"k", "s", "t"⟩ "foo" "us-east-1" envFull
      ⟨403, Json.null⟩ rfl).2 "https://example.invalid"⟩

/-- C7: an HTTP 200 response whose body is the object with field
`SigninToken` holding `abc` makes the exchange succeed with token `abc`;
the parser equally accepts the internal field name `signin_token`; and any
success-status body the parser rejects fails with `MalformedResponse`. -/
theorem c7_success_and_malformed (credentials : Credentials)
    (region : String) :
    get_signin_token credentials region
      ⟨200, Json.obj [("SigninToken", Json.str "abc")]⟩ = Except.ok "abc"
    ∧ get_signin_token credentials region
      ⟨200, Json.obj [("signin_token", Json.str "abc")]⟩ = Except.ok "abc"
    ∧ ∀ res : HttpResponse, isSuccessStatus res.status = true →
        parseGetSigninTokenResponse res.body = none →
        get_signin_token credentials region res =
          Except.error Error.MalformedResponse := by
  refine ⟨rfl, rfl, fun res hok hparse => ?_⟩
  simp [get_signin_token, hok, hparse]

/-- Witness for C7: the success scenarios plus a concrete malformed success
body (a bare string instead of an object). -/
theorem c7_success_and_malformed_witness :
    get_signin_token ⟨"k", "s", "t"⟩ "us-east-1"
      ⟨200, Json.obj [("SigninToken", Json.str "abc")]⟩ = Except.ok "abc"
    ∧ isSuccessStatus 200 = true
    ∧ parseGetSigninTokenResponse (Json.str "nope") = none
    ∧ get_signin_token ⟨"k", "s", "t"⟩ "us-east-1" ⟨200, Json.str "nope"⟩ =
      Except.error Error.MalformedResponse :=
  ⟨(c7_success_and_malformed ⟨"k", "s", "t"⟩ "us-east-1").1,
   by decide, rfl,
   (c7_success_and_malformed ⟨"k", "s", "t"⟩ "us-east-1").2.2
     ⟨200, Json.str "nope"⟩ rfl rfl⟩

/-- Two adjacent string chunks in a right-nested concatenation merge into
their concatenation. -/
theorem append_lit_merge (a b c : String) (h : a ++ b = c) (x : String) :
    a ++ (b ++ x) = c ++ x := by rw [← String.append_assoc, h]

/-- C8: for token `TOK123` and region `us-east-1` the destination URL and
the final URL are exactly the expected strings, the parsed final URL has
host `signin.aws.amazon.com`, path `/federation` and the four query pairs
in order; and in general the final URL is the federation base followed by
the query string in which the destination URL and the token appear
percent-encoded by the form-urlencoded rules. -/
theorem c8_console_url (signin_token region : String) :
    destinationUrl "us-east-1" =
      "https://us-east-1.console.aws.amazon.com/console/home?region=us-east-1"
    ∧ get_console_url "TOK123" "us-east-1" = Except.ok
      "https://signin.aws.amazon.com/federation?Action=login&Issuer=wojteks-app&Destination=https%3A%2F%2Fus-east-1.console.aws.amazon.com%2Fconsole%2Fhome%3Fregion%3Dus-east-1&SigninToken=TOK123"
    ∧ consoleUrlParsed "TOK123" "us-east-1" = some
      ⟨"https", "signin.aws.amazon.com", "/federation",
       [("Action", "login"), ("Issuer", "wojteks-app"),
        ("Destination",
         "https://us-east-1.console.aws.amazon.com/console/home?region=us-east-1"),
        ("SigninToken", "TOK123")]⟩
    ∧ get_console_url signin_token region = Except.ok
      ("https://signin.aws.amazon.com/federation?Action=login&Issuer=wojteks-app&Destination="
        ++ formUrlencode (destinationUrl region)
        ++ "&SigninToken=" ++ formUrlencode signin_token) := by
  refine ⟨rfl, rfl, rfl, ?_⟩
  have h0 : get_console_url signin_token region = Except.ok (urlToString
      ⟨"https", "signin.aws.amazon.com", "/federation",
       [("Action", "login"), ("Issuer", "wojteks-app"),
        ("Destination", destinationUrl region),
        ("SigninToken", signin_token)]⟩) := rfl
  rw [h0]
  refine congrArg Except.ok ?_
  simp only [urlToString, queryString, queryPairString]
  rw [show formUrlencode "Action" = "Action" from rfl,
      show formUrlencode "login" = "login" from rfl,
      show formUrlencode "Issuer" = "Issuer" from rfl,
      show formUrlencode "wojteks-app" = "wojteks-app" from rfl,
      show formUrlencode "Destination" = "Destination" from rfl,
      show formUrlencode "SigninToken" = "SigninToken" from rfl]
  simp only [String.append_assoc]
  rw [append_lit_merge "SigninToken" "=" "SigninToken=" rfl,
      append_lit_merge "&" "SigninToken=" "&SigninToken=" rfl,
      append_lit_merge "Destination" "=" "Destination=" rfl,
      append_lit_merge "&" "Destination=" "&Destination=" rfl,
      append_lit_merge "wojteks-app" "&Destination=" "wojteks-app&Destination=" rfl,
      append_lit_merge "=" "wojteks-app&Destination=" "=wojteks-app&Destination=" rfl,
      append_lit_merge "Issuer" "=wojteks-app&Destination="
        "Issuer=wojteks-app&Destination=" rfl,
      append_lit_merge "&" "Issuer=wojteks-app&Destination="
        "&Issuer=wojteks-app&Destination=" rfl,
      append_lit_merge "login" "&Issuer=wojteks-app&Destination="
        "login&Issuer=wojteks-app&Destination=" rfl,
      append_lit_merge "=" "login&Issuer=wojteks-app&Destination="
        "=login&Issuer=wojteks-app&Destination=" rfl,
      append_lit_merge "Action" "=login&Issuer=wojteks-app&Destination="
        "Action=login&Issuer=wojteks-app&Destination=" rfl,
      append_lit_merge "?" "Action=login&Issuer=wojteks-app&Destination="
        "?Action=login&Issuer=wojteks-app&Destination=" rfl,
      append_lit_merge "/federation" "?Action=login&Issuer=wojteks-app&Destination="
        "/federation?Action=login&Issuer=wojteks-app&Destination=" rfl,
      append_lit_merge "signin.aws.amazon.com"
        "/federation?Action=login&Issuer=wojteks-app&Destination="
        "signin.aws.amazon.com/federation?Action=login&Issuer=wojteks-app&Destination="
        rfl,
      append_lit_merge "://"
        "signin.aws.amazon.com/federation?Action=login&Issuer=wojteks-app&Destination="
        "://signin.aws.amazon.com/federation?Action=login&Issuer=wojteks-app&Destination="
        rfl,
      append_lit_merge "https"
        "://signin.aws.amazon.com/federation?Action=login&Issuer=wojteks-app&Destination="
        "https://signin.aws.amazon.com/federation?Action=login&Issuer=wojteks-app&Destination="
        rfl]

/-- C9: the URL Builder always succeeds: for every signin token and region
string, `get_console_url` returns an `ok` URL, so its `UrlBuildError`
branch is unreachable (the base URL it parses is a fixed well-formed
constant). -/
theorem c9_url_builder_never_fails (signin_token region : String) :
    ∃ url, get_console_url signin_token region = Except.ok url :=
  ⟨_, rfl⟩

end AwsConsoleLink
